import Mathlib

/-!
Verification of the Swappo marketplace backend's trade lifecycle, rating
ledger and badge system.  The JavaScript services (`TradeService` in
services/tradeService.js, `RatingService` in services/ratingService.js,
utils/badgeSystem.js, validation/tradeValidation.js) are shallowly embedded
as pure Lean functions over an explicit database state.  Each Prisma call is
modelled on lists: `findUnique`/`findFirst` become `List.find?`, `update`
becomes a positional `List.map` on the matching row, `create` appends a row,
`delete` filters it out, and a `$transaction` is the sequential composition
of its steps, returning the new state only on success (`Except.ok`); an
`Except.error` carries the thrown `Error` message and, as in a rolled-back
transaction, leaves no state change.  Fresh record identifiers and the
completion timestamp, produced by the database engine in the source, are
explicit arguments.
-/

namespace Swappo

/-- Item status strings used by the source (`AVAILABLE`, `RESERVED`,
`SWAPPED`, ...). -/
inductive ItemStatus
  | AVAILABLE
  | RESERVED
  | SWAPPED
  | UNAVAILABLE
  | TRADED
  | REMOVED
deriving DecidableEq, Repr

/-- TradeRequest status strings used by the source. -/
inductive ReqStatus
  | PENDING
  | ACCEPTED
  | REJECTED
deriving DecidableEq, Repr

/-- Trade status strings used by the source. -/
inductive TradeStatus
  | PENDING
  | COMPLETED
  | CANCELLED
deriving DecidableEq, Repr

/-- Badge tiers of utils/badgeSystem.js. -/
inductive Badge
  | BRONZE
  | SILVER
  | GOLD
  | DIAMOND
  | RUBY
deriving DecidableEq, Repr

/-- A row of the `item` table (the fields the trade flow reads). -/
structure Item where
  id : Nat
  user_id : Nat
  status : ItemStatus
deriving DecidableEq, Repr

/-- A row of the `tradeRequest` table. -/
structure TradeRequest where
  id : Nat
  requester_id : Nat
  requested_item_id : Nat
  offered_item_id : Nat
  status : ReqStatus
deriving DecidableEq, Repr

/-- A row of the `trade` table.  `trade_request_id` is the unique reference
to the originating trade request. -/
structure Trade where
  id : Nat
  trade_request_id : Nat
  owner_id : Nat
  requester_id : Nat
  requested_item_id : Nat
  offered_item_id : Nat
  status : TradeStatus
  completed_at : Option Nat
deriving DecidableEq, Repr

/-- A row of the `swappedItem` table (append-only transfer ledger). -/
structure SwappedItem where
  trade_id : Nat
  item_id : Nat
  user_id : Nat
deriving DecidableEq, Repr

/-- A row of the `rating` table (services/ratingService.js variant with
required trade linkage). -/
structure Rating where
  id : Nat
  reviewer_id : Nat
  reviewee_id : Nat
  trade_id : Nat
  rating : Nat
  comment : Option String
deriving DecidableEq, Repr

/-- The loyalty state of a `user` row. -/
structure User where
  id : Nat
  loyalty_points : Int
  badge : Badge
deriving DecidableEq, Repr

/-- The database state the embedded services read and write. -/
structure DB where
  items : List Item
  tradeRequests : List TradeRequest
  trades : List Trade
  swappedItems : List SwappedItem
  ratings : List Rating
  users : List User
deriving DecidableEq, Repr

/-! ## utils/badgeSystem.js -/

/-- `BADGE_THRESHOLDS` of utils/badgeSystem.js. -/
def BADGE_THRESHOLDS (b : Badge) : Int :=
  match b with
  | .BRONZE => 0
  | .SILVER => 51
  | .GOLD => 151
  | .DIAMOND => 301
  | .RUBY => 601

/-- `calculateBadge(loyaltyPoints)` of utils/badgeSystem.js: cascading
`>=` threshold checks, highest tier first. -/
def calculateBadge (loyaltyPoints : Int) : Badge :=
  if loyaltyPoints ≥ BADGE_THRESHOLDS .RUBY then .RUBY
  else if loyaltyPoints ≥ BADGE_THRESHOLDS .DIAMOND then .DIAMOND
  else if loyaltyPoints ≥ BADGE_THRESHOLDS .GOLD then .GOLD
  else if loyaltyPoints ≥ BADGE_THRESHOLDS .SILVER then .SILVER
  else .BRONZE

/-- Rank of a badge tier, in ascending threshold order. -/
def badgeRank (b : Badge) : Nat :=
  match b with
  | .BRONZE => 0
  | .SILVER => 1
  | .GOLD => 2
  | .DIAMOND => 3
  | .RUBY => 4

/-- Did a service call succeed (commit its writes) rather than throw? -/
def isOk {α : Type} : Except String α → Bool
  | .ok _ => true
  | .error _ => false

/-! ## services/tradeService.js -/

/-- The `OR` filter of the fan-out rejection in
`TradeService.acceptTradeRequest`: does request `r` reference item `a` or
item `b` as its requested or offered item? -/
def touchesItems (r : TradeRequest) (a b : Nat) : Prop :=
  r.requested_item_id = a ∨ r.requested_item_id = b ∨
  r.offered_item_id = a ∨ r.offered_item_id = b

instance (r : TradeRequest) (a b : Nat) : Decidable (touchesItems r a b) := by
  unfold touchesItems; infer_instance

/-- `TradeService.createTradeRequest(requestData, requesterId)`.  `newId`
stands for the row identifier the database generates for the created
request. -/
def createTradeRequest (db : DB)
    (requested_item_id offered_item_id requesterId newId : Nat) :
    Except String (TradeRequest × DB) :=
  match db.items.find? (fun i => i.id == requested_item_id) with
  | none => .error "Requested item not found"
  | some requestedItem =>
    match db.items.find? (fun i => i.id == offered_item_id) with
    | none => .error "Offered item not found"
    | some offeredItem =>
      if requestedItem.status ≠ .AVAILABLE then
        .error "Requested item is not available"
      else if offeredItem.status ≠ .AVAILABLE then
        .error "Offered item is not available"
      else if offeredItem.user_id ≠ requesterId then
        .error "You can only offer your own items"
      else if requestedItem.user_id = requesterId then
        .error "Cannot request your own item"
      else
        match db.tradeRequests.find? (fun r =>
            decide (r.requester_id = requesterId ∧
              r.requested_item_id = requested_item_id ∧
              r.offered_item_id = offered_item_id ∧ r.status = .PENDING)) with
        | some _ => .error "You already have a pending request for this trade"
        | none =>
          let tradeRequest : TradeRequest :=
            ⟨newId, requesterId, requested_item_id, offered_item_id, .PENDING⟩
          .ok (tradeRequest,
            { db with tradeRequests := db.tradeRequests ++ [tradeRequest] })

/-- `TradeService.acceptTradeRequest(requestId, userId)`.  `newTradeId` is
the generated identifier of the created trade row.  The `$transaction` body
(request → ACCEPTED, trade created PENDING, both items → RESERVED, fan-out
rejection of competing PENDING requests) is applied as one state change on
success.  A dangling item relation, which would surface as a `TypeError` in
the source, is an error. -/
def acceptTradeRequest (db : DB) (requestId userId newTradeId : Nat) :
    Except String (Trade × TradeRequest × DB) :=
  match db.tradeRequests.find? (fun r => r.id == requestId) with
  | none => .error "Trade request not found"
  | some tradeRequest =>
    match db.items.find? (fun i => i.id == tradeRequest.requested_item_id) with
    | none => .error "TypeError: requested_item is null"
    | some requestedItem =>
      match db.items.find? (fun i => i.id == tradeRequest.offered_item_id) with
      | none => .error "TypeError: offered_item is null"
      | some offeredItem =>
        if requestedItem.user_id ≠ userId then
          .error "You can only accept requests for your own items"
        else if tradeRequest.status ≠ .PENDING then
          .error "Trade request is no longer pending"
        else if requestedItem.status ≠ .AVAILABLE then
          .error "Your item is no longer available"
        else if offeredItem.status ≠ .AVAILABLE then
          .error "Offered item is no longer available"
        else
          let updatedRequest := { tradeRequest with status := ReqStatus.ACCEPTED }
          let trade : Trade :=
            ⟨newTradeId, requestId, userId, tradeRequest.requester_id,
              tradeRequest.requested_item_id, tradeRequest.offered_item_id,
              .PENDING, none⟩
          let reqsAccepted := db.tradeRequests.map fun r =>
            if r.id = requestId then { r with status := ReqStatus.ACCEPTED } else r
          let itemsReserved := db.items.map fun i =>
            if i.id = tradeRequest.requested_item_id ∨
                i.id = tradeRequest.offered_item_id then
              { i with status := ItemStatus.RESERVED }
            else i
          let reqsRejected := reqsAccepted.map fun r =>
            if r.id ≠ requestId ∧ r.status = .PENDING ∧
                touchesItems r tradeRequest.requested_item_id
                  tradeRequest.offered_item_id then
              { r with status := ReqStatus.REJECTED }
            else r
          .ok (trade, updatedRequest,
            { db with
                tradeRequests := reqsRejected
                items := itemsReserved
                trades := db.trades ++ [trade] })

/-- `TradeService.rejectTradeRequest(requestId, userId)`. -/
def rejectTradeRequest (db : DB) (requestId userId : Nat) :
    Except String (TradeRequest × DB) :=
  match db.tradeRequests.find? (fun r => r.id == requestId) with
  | none => .error "Trade request not found"
  | some tradeRequest =>
    match db.items.find? (fun i => i.id == tradeRequest.requested_item_id) with
    | none => .error "TypeError: requested_item is null"
    | some requestedItem =>
      if requestedItem.user_id ≠ userId then
        .error "You can only reject requests for your own items"
      else if tradeRequest.status ≠ .PENDING then
        .error "Trade request is no longer pending"
      else
        let updatedRequest := { tradeRequest with status := ReqStatus.REJECTED }
        .ok (updatedRequest,
          { db with tradeRequests := db.tradeRequests.map fun r =>
              if r.id = requestId then { r with status := ReqStatus.REJECTED } else r })

/-- `TradeService.completeTrade(tradeId, userId)`.  The source resolves the
`tradeId` argument with `findUnique({ where: { trade_request_id: tradeId } })`,
i.e. against the originating trade request's id.  `now` is the completion
timestamp `new Date()`.  The `$transaction` (trade → COMPLETED with
timestamp, both items → SWAPPED, two SwappedItem rows appended) is applied
as one state change on success; an item `update` on a missing row throws in
Prisma and is an error here. -/
def completeTrade (db : DB) (tradeId userId now : Nat) :
    Except String (Trade × DB) :=
  match db.trades.find? (fun t => t.trade_request_id == tradeId) with
  | none => .error "Trade not found"
  | some trade =>
    if trade.owner_id ≠ userId ∧ trade.requester_id ≠ userId then
      .error "You are not authorized to complete this trade"
    else if trade.status ≠ .PENDING then
      .error "Trade is not in pending status"
    else
      match db.items.find? (fun i => i.id == trade.requested_item_id) with
      | none => .error "Record to update not found"
      | some _ =>
        match db.items.find? (fun i => i.id == trade.offered_item_id) with
        | none => .error "Record to update not found"
        | some _ =>
          let completedTrade :=
            { trade with status := TradeStatus.COMPLETED, completed_at := some now }
          let tradesCompleted := db.trades.map fun t =>
            if t.trade_request_id = tradeId then
              { t with status := TradeStatus.COMPLETED, completed_at := some now }
            else t
          let itemsSwapped := db.items.map fun i =>
            if i.id = trade.requested_item_id ∨ i.id = trade.offered_item_id then
              { i with status := ItemStatus.SWAPPED }
            else i
          let ledger := db.swappedItems ++
            [⟨trade.id, trade.requested_item_id, trade.requester_id⟩,
              ⟨trade.id, trade.offered_item_id, trade.owner_id⟩]
          .ok (completedTrade,
            { db with
                trades := tradesCompleted
                items := itemsSwapped
                swappedItems := ledger })

/-- `TradeService.cancelTrade(tradeId, userId)`.  Unlike `completeTrade`,
the source resolves the `tradeId` argument with
`findUnique({ where: { id: tradeId } })`, i.e. against the trade's own id. -/
def cancelTrade (db : DB) (tradeId userId : Nat) : Except String (Trade × DB) :=
  match db.trades.find? (fun t => t.id == tradeId) with
  | none => .error "Trade not found"
  | some trade =>
    if trade.owner_id ≠ userId ∧ trade.requester_id ≠ userId then
      .error "You are not authorized to cancel this trade"
    else if trade.status = .COMPLETED then
      .error "Cannot cancel a completed trade"
    else if trade.status = .CANCELLED then
      .error "Trade is already cancelled"
    else
      match db.items.find? (fun i => i.id == trade.requested_item_id) with
      | none => .error "Record to update not found"
      | some _ =>
        match db.items.find? (fun i => i.id == trade.offered_item_id) with
        | none => .error "Record to update not found"
        | some _ =>
          let cancelledTrade := { trade with status := TradeStatus.CANCELLED }
          let tradesCancelled := db.trades.map fun t =>
            if t.id = tradeId then { t with status := TradeStatus.CANCELLED } else t
          let itemsReverted := db.items.map fun i =>
            if i.id = trade.requested_item_id ∨ i.id = trade.offered_item_id then
              { i with status := ItemStatus.AVAILABLE }
            else i
          .ok (cancelledTrade,
            { db with trades := tradesCancelled, items := itemsReverted })

/-! ## services/ratingService.js (the variant with loyalty accounting) -/

/-- `RatingService.createRating(ratingData, raterId)` from the
services/ratingService.js variant with mandatory trade linkage and the
loyalty transaction (the repository holds two divergent `RatingService`
variants; this is the one the claims cite).  `newRatingId` is the generated
row id.  The `$transaction` appends the rating and increments the
reviewee's `loyalty_points` by `rating * 5`; the reviewee's `badge` field
is not touched. -/
def createRating (db : DB) (reviewee_id trade_id : Nat) (rating : Nat)
    (comment : Option String) (raterId newRatingId : Nat) :
    Except String (Rating × DB) :=
  if raterId = reviewee_id then .error "You cannot rate yourself"
  else
    match db.trades.find? (fun t => t.id == trade_id) with
    | none => .error "Trade not found"
    | some trade =>
      if trade.status ≠ .COMPLETED then
        .error "You can only rate users from completed trades"
      else if ¬(trade.owner_id = raterId ∨ trade.requester_id = raterId) then
        .error "You can only rate users from trades you participated in"
      else if ¬(trade.owner_id = reviewee_id ∨ trade.requester_id = reviewee_id) then
        .error "You can only rate the other party in the trade"
      else
        match db.ratings.find? (fun r =>
            decide (r.reviewer_id = raterId ∧ r.reviewee_id = reviewee_id ∧
              r.trade_id = trade_id)) with
        | some _ => .error "You have already rated this user for this trade"
        | none =>
          match db.users.find? (fun u => u.id == reviewee_id) with
          | none => .error "Record to update not found"
          | some _ =>
            let newRating : Rating :=
              ⟨newRatingId, raterId, reviewee_id, trade_id, rating, comment⟩
            let loyaltyPoints : Int := (rating : Int) * 5
            let usersRewarded := db.users.map fun u =>
              if u.id = reviewee_id then
                { u with loyalty_points := u.loyalty_points + loyaltyPoints }
              else u
            .ok (newRating,
              { db with
                  ratings := db.ratings ++ [newRating]
                  users := usersRewarded })

/-- `RatingService.deleteRating(ratingId, raterId)` of the same variant:
author-only deletion; the `$transaction` removes the rating row and
decrements the reviewee's `loyalty_points` by `rating * 5`. -/
def deleteRating (db : DB) (ratingId raterId : Nat) : Except String DB :=
  match db.ratings.find? (fun r => r.id == ratingId) with
  | none => .error "Rating not found"
  | some existingRating =>
    if existingRating.reviewer_id ≠ raterId then
      .error "You can only delete your own ratings"
    else
      match db.users.find? (fun u => u.id == existingRating.reviewee_id) with
      | none => .error "Record to update not found"
      | some _ =>
        let pointsToSubtract : Int := (existingRating.rating : Int) * 5
        let ratingsLeft := db.ratings.filter fun r => decide (r.id ≠ ratingId)
        let usersAdjusted := db.users.map fun u =>
          if u.id = existingRating.reviewee_id then
            { u with loyalty_points := u.loyalty_points - pointsToSubtract }
          else u
        .ok { db with ratings := ratingsLeft, users := usersAdjusted }

/-! ## validation/tradeValidation.js and routes/trades.js -/

/-- The custom same-item check of `createTradeRequestSchema`
(validation/tradeValidation.js, aliased as `createTradeSchema`): a payload
whose requested and offered item ids coincide is rejected with the
`trade.sameItem` message "Cannot trade the same item". -/
def createTradeRequestSchemaCheck (requested_item_id offered_item_id : Nat) :
    Except String Unit :=
  if requested_item_id = offered_item_id then .error "Cannot trade the same item"
  else .ok ()

/-- The `POST /trades/request` route of routes/trades.js: it runs
`validateBody(createTradeSchema)` — which on a schema violation responds
with the validation error and never reaches the handler — and only then
lets the handler call
`TradeService.createTradeRequest(req.body, req.user.id)`.  The validation
rejection is embedded as the error carrying the schema's message. -/
def createTradeRequestEndpoint (db : DB)
    (requested_item_id offered_item_id requesterId newId : Nat) :
    Except String (TradeRequest × DB) :=
  match createTradeRequestSchemaCheck requested_item_id offered_item_id with
  | .error e => .error e
  | .ok _ => createTradeRequest db requested_item_id offered_item_id requesterId newId

/-! ## Concrete sample states, used to instantiate the theorems -/

/-- Two AVAILABLE items (100 owned by user 7, 200 by user 8) and two
PENDING requests: request 1 by user 8 offering item 200 for item 100, and
a competing request 2 by user 9 offering item 300 for item 100. -/
def dbAvail : DB :=
  ⟨[⟨100, 7, .AVAILABLE⟩, ⟨200, 8, .AVAILABLE⟩],
    [⟨1, 8, 100, 200, .PENDING⟩, ⟨2, 9, 100, 300, .PENDING⟩],
    [], [], [], []⟩

/-- The two AVAILABLE items alone, with no requests yet. -/
def dbNoReq : DB :=
  ⟨[⟨100, 7, .AVAILABLE⟩, ⟨200, 8, .AVAILABLE⟩], [], [], [], [], []⟩

/-- `dbNoReq` after user 8 requested item 100 offering item 200. -/
def dbNewReq : DB :=
  ⟨[⟨100, 7, .AVAILABLE⟩, ⟨200, 8, .AVAILABLE⟩],
    [⟨1, 8, 100, 200, .PENDING⟩], [], [], [], []⟩

/-- Both items RESERVED and a PENDING trade 50 (from trade request 1,
owner 7, requester 8). -/
def dbReserved : DB :=
  ⟨[⟨100, 7, .RESERVED⟩, ⟨200, 8, .RESERVED⟩], [],
    [⟨50, 1, 7, 8, 100, 200, .PENDING, none⟩], [], [], []⟩

/-- `dbReserved` after completing trade 50 at time 99. -/
def dbCompleted : DB :=
  ⟨[⟨100, 7, .SWAPPED⟩, ⟨200, 8, .SWAPPED⟩], [],
    [⟨50, 1, 7, 8, 100, 200, .COMPLETED, some 99⟩],
    [⟨50, 100, 8⟩, ⟨50, 200, 7⟩], [], []⟩

/-- A COMPLETED trade 10 between owner 1 and requester 2, and user 2
holding 46 loyalty points with a BRONZE badge. -/
def dbRating : DB :=
  ⟨[], [], [⟨10, 99, 1, 2, 100, 200, .COMPLETED, some 0⟩], [], [],
    [⟨2, 46, .BRONZE⟩]⟩

/-- `dbRating` after user 1 rated user 2 with 1 star (rating row 5):
user 2 gained 5 points, crossing the SILVER threshold, with the badge
field left as it was. -/
def dbRated : DB :=
  ⟨[], [], [⟨10, 99, 1, 2, 100, 200, .COMPLETED, some 0⟩], [],
    [⟨5, 1, 2, 10, 1, none⟩], [⟨2, 51, .BRONZE⟩]⟩

end Swappo

namespace Swappo

/-- Helper: `find?` commutes with a `map` whose function preserves the
predicate (used for re-resolving rows after a positional update). -/
theorem find?_map_comm {α : Type} (f : α → α) (p : α → Bool) (l : List α)
    (hf : ∀ x, p (f x) = p x) : (l.map f).find? p = (l.find? p).map f := by
  induction l with
  | nil => rfl
  | cons x xs ih =>
    simp only [List.map_cons, List.find?]
    rw [hf x]
    cases hpx : p x <;> simp [ih]

/-- Helper: `find?` skips a prefix in which nothing matches. -/
theorem find?_append_none {α : Type} (l₁ l₂ : List α) (p : α → Bool)
    (h : l₁.find? p = none) : (l₁ ++ l₂).find? p = l₂.find? p := by
  induction l₁ with
  | nil => rfl
  | cons x xs ih =>
    cases hp : p x
    · simp only [List.find?_cons, hp] at h ⊢
      simp only [List.cons_append, List.find?_cons, hp]
      exact ih h
    · simp [List.find?_cons, hp] at h

/-- Helper: mapping a function that fixes every element of a list is the
identity on that list. -/
theorem map_id_of_eq {α : Type} (l : List α) (f : α → α)
    (h : ∀ x ∈ l, f x = x) : l.map f = l := by
  induction l with
  | nil => rfl
  | cons x xs ih =>
    simp only [List.map_cons, h x (List.mem_cons_self x xs)]
    rw [ih (fun y hy => h y (List.mem_cons_of_mem x hy))]

/-- C5: `calculateBadge` is a pure, monotone non-decreasing function of the
loyalty-point total, and each tier starts inclusively at its lower edge:
0 ↦ BRONZE, 51 ↦ SILVER, 151 ↦ GOLD, 301 ↦ DIAMOND, 601 ↦ RUBY. -/
theorem calculateBadge_monotone_and_boundaries :
    (∀ p q : Int, p ≤ q → badgeRank (calculateBadge p) ≤ badgeRank (calculateBadge q)) ∧
    calculateBadge 0 = .BRONZE ∧ calculateBadge 51 = .SILVER ∧
    calculateBadge 151 = .GOLD ∧ calculateBadge 301 = .DIAMOND ∧
    calculateBadge 601 = .RUBY := by
  refine ⟨?_, by decide, by decide, by decide, by decide, by decide⟩
  intro p q hpq
  unfold calculateBadge BADGE_THRESHOLDS badgeRank
  split_ifs <;> simp_all <;> omega

/-- C4: a CreateTradeRequest call whose requested and offered item ids
coincide is rejected by the route's schema validation with the same-item
error; the error result carries no new state, so no TradeRequest record is
created. -/
theorem createTradeRequest_sameItem_rejected
    (db : DB) (itemId requesterId newId : Nat) :
    createTradeRequestEndpoint db itemId itemId requesterId newId =
      .error "Cannot trade the same item" := by
  simp [createTradeRequestEndpoint, createTradeRequestSchemaCheck]

/-- C10: `completeTrade` resolves its identifier argument against the
trade's `trade_request_id` while `cancelTrade` resolves it against the
trade's own `id`: for a pending trade whose two identifiers differ, the
identifier that completes it is reported "Trade not found" by
`cancelTrade`, and the identifier that cancels it is reported
"Trade not found" by `completeTrade`. -/
theorem completeTrade_cancelTrade_resolve_different_identifiers
    (db : DB) (t : Trade) (a b : Item) (userId now : Nat)
    (htr : db.trades = [t])
    (hne : t.id ≠ t.trade_request_id)
    (hown : t.owner_id = userId)
    (hst : t.status = .PENDING)
    (ha : db.items.find? (fun i => i.id == t.requested_item_id) = some a)
    (hb : db.items.find? (fun i => i.id == t.offered_item_id) = some b) :
    isOk (completeTrade db t.trade_request_id userId now) = true ∧
    completeTrade db t.id userId now = .error "Trade not found" ∧
    isOk (cancelTrade db t.id userId) = true ∧
    cancelTrade db t.trade_request_id userId = .error "Trade not found" := by
  refine ⟨?_, ?_, ?_, ?_⟩ <;>
    simp [completeTrade, cancelTrade, isOk, htr, List.find?, hne, Ne.symm hne,
      hown, hst, ha, hb]

/-- C9: a successful CreateTradeRequest call only appends the new PENDING
request record: items, trades, swapped-item ledger, ratings and users are
exactly the old ones, and both referenced items still resolve to AVAILABLE
rows in the new state. -/
theorem createTradeRequest_frame
    (db db' : DB) (req : TradeRequest) (requested offered requesterId newId : Nat)
    (h : createTradeRequest db requested offered requesterId newId = .ok (req, db')) :
    req = ⟨newId, requesterId, requested, offered, .PENDING⟩ ∧
    db'.tradeRequests = db.tradeRequests ++ [req] ∧
    db'.items = db.items ∧ db'.trades = db.trades ∧
    db'.swappedItems = db.swappedItems ∧ db'.ratings = db.ratings ∧
    db'.users = db.users ∧
    (∃ a, db'.items.find? (fun i => i.id == requested) = some a ∧
      a.status = .AVAILABLE) ∧
    (∃ b, db'.items.find? (fun i => i.id == offered) = some b ∧
      b.status = .AVAILABLE) := by
  unfold createTradeRequest at h
  split at h
  · simp at h
  · rename_i requestedItem hA
    split at h
    · simp at h
    · rename_i offeredItem hB
      split_ifs at h with h1 h2 h3 h4
      split at h
      · simp at h
      · simp only [Except.ok.injEq, Prod.mk.injEq] at h
        obtain ⟨hreq, hdb⟩ := h
        subst hdb
        push_neg at h1 h2
        refine ⟨hreq.symm, by simp [hreq], rfl, rfl, rfl, rfl, rfl,
          ⟨requestedItem, hA, h1⟩, ⟨offeredItem, hB, h2⟩⟩

/-- C8: completing a PENDING trade twice with the same identifier succeeds
on the first call; the second call by a participant fails with the
"not pending" error and, being an error, commits no writes. -/
theorem completeTrade_idempotent_rejecting
    (db db' : DB) (t : Trade) (tradeId userId userId' now now' : Nat)
    (h : completeTrade db tradeId userId now = .ok (t, db'))
    (hp : t.owner_id = userId' ∨ t.requester_id = userId') :
    completeTrade db' tradeId userId' now' =
      .error "Trade is not in pending status" := by
  unfold completeTrade at h
  split at h
  · simp at h
  · rename_i t0 hfind
    have ht0 : t0.trade_request_id = tradeId := by
      have := List.find?_some hfind
      simpa using this
    split_ifs at h with h1 h2
    split at h
    · simp at h
    · rename_i a hA
      split at h
      · simp at h
      · rename_i b hB
        simp only [Except.ok.injEq, Prod.mk.injEq] at h
        obtain ⟨hT, hdb⟩ := h
        have hmap : db'.trades.find? (fun x => x.trade_request_id == tradeId) =
            some t := by
          rw [← hdb]
          rw [find?_map_comm
            (fun x : Trade =>
              if x.trade_request_id = tradeId then
                { x with status := TradeStatus.COMPLETED, completed_at := some now }
              else x)
            (fun x => x.trade_request_id == tradeId) db.trades
            (fun x => by by_cases hx : x.trade_request_id = tradeId <;> simp [hx])]
          rw [hfind]
          have hft : (if t0.trade_request_id = tradeId then
              { t0 with status := TradeStatus.COMPLETED, completed_at := some now }
            else t0) = t := by rw [if_pos ht0]; exact hT
          simp [hft]
        have hstat : t.status = TradeStatus.COMPLETED := by rw [← hT]
        have hna : ¬(t.owner_id ≠ userId' ∧ t.requester_id ≠ userId') := by
          rcases hp with hp | hp
          · exact fun hc => hc.1 hp
          · exact fun hc => hc.2 hp
        unfold completeTrade
        rw [hmap]
        dsimp only
        rw [if_neg hna, if_pos (by simp [hstat])]

/-- C2: for a PENDING trade and a participant caller, `completeTrade` marks
the trade COMPLETED with the completion timestamp, sets both the requested
and the offered item's status to SWAPPED (other items untouched), and
appends exactly two SwappedItem records: the requested item attributed to
the requester and the offered item attributed to the owner — each party is
attributed the item it acquired, not the one it gave up. -/
theorem completeTrade_effects
    (db : DB) (t : Trade) (a b : Item) (tradeId userId now : Nat)
    (ht : db.trades.find? (fun x => x.trade_request_id == tradeId) = some t)
    (hpart : t.owner_id = userId ∨ t.requester_id = userId)
    (hst : t.status = .PENDING)
    (ha : db.items.find? (fun i => i.id == t.requested_item_id) = some a)
    (hb : db.items.find? (fun i => i.id == t.offered_item_id) = some b) :
    ∃ db', completeTrade db tradeId userId now =
        .ok ({ t with status := .COMPLETED, completed_at := some now }, db') ∧
      db'.swappedItems = db.swappedItems ++
        [⟨t.id, t.requested_item_id, t.requester_id⟩,
          ⟨t.id, t.offered_item_id, t.owner_id⟩] ∧
      db'.items.length = db.items.length ∧
      (∀ k (hk : k < db.items.length) (hk' : k < db'.items.length),
        (db.items[k].id = t.requested_item_id ∨
            db.items[k].id = t.offered_item_id →
          db'.items[k] = { db.items[k] with status := ItemStatus.SWAPPED }) ∧
        (db.items[k].id ≠ t.requested_item_id ∧
            db.items[k].id ≠ t.offered_item_id →
          db'.items[k] = db.items[k])) ∧
      db'.trades.length = db.trades.length ∧
      (∀ k (hk : k < db.trades.length) (hk' : k < db'.trades.length),
        (db.trades[k].trade_request_id = tradeId →
          db'.trades[k] =
            { db.trades[k] with
                status := TradeStatus.COMPLETED, completed_at := some now }) ∧
        (db.trades[k].trade_request_id ≠ tradeId →
          db'.trades[k] = db.trades[k])) ∧
      db'.tradeRequests = db.tradeRequests ∧
      db'.ratings = db.ratings ∧ db'.users = db.users := by
  have hna : ¬(t.owner_id ≠ userId ∧ t.requester_id ≠ userId) := by
    rcases hpart with hp | hp
    · exact fun hc => hc.1 hp
    · exact fun hc => hc.2 hp
  have hcomp : completeTrade db tradeId userId now =
      .ok ({ t with status := .COMPLETED, completed_at := some now },
        { db with
            trades := db.trades.map fun x =>
              if x.trade_request_id = tradeId then
                { x with status := TradeStatus.COMPLETED, completed_at := some now }
              else x
            items := db.items.map fun i =>
              if i.id = t.requested_item_id ∨ i.id = t.offered_item_id then
                { i with status := ItemStatus.SWAPPED }
              else i
            swappedItems := db.swappedItems ++
              [⟨t.id, t.requested_item_id, t.requester_id⟩,
                ⟨t.id, t.offered_item_id, t.owner_id⟩] }) := by
    unfold completeTrade
    rw [ht]
    dsimp only
    rw [if_neg hna, if_neg (by simp [hst]), ha]
    dsimp only
    rw [hb]
  refine ⟨_, hcomp, rfl, by simp, ?_, by simp, ?_, rfl, rfl, rfl⟩
  · intro k hk hk'
    constructor
    · intro hcase
      simp only [List.getElem_map]
      rw [if_pos hcase]
    · intro hcase
      simp only [List.getElem_map]
      rw [if_neg (by tauto)]
  · intro k hk hk'
    constructor
    · intro hcase
      simp only [List.getElem_map]
      rw [if_pos hcase]
    · intro hcase
      simp only [List.getElem_map]
      rw [if_neg hcase]

/-- C7: for a participant caller on an existing trade, `cancelTrade`
succeeds exactly when the trade is PENDING — cancelling it and reverting
both items to AVAILABLE — while a COMPLETED trade is refused with an error
distinct from the one refusing an already CANCELLED trade. -/
theorem cancelTrade_spec
    (db : DB) (t : Trade) (a b : Item) (tradeId userId : Nat)
    (ht : db.trades.find? (fun x => x.id == tradeId) = some t)
    (hpart : t.owner_id = userId ∨ t.requester_id = userId)
    (ha : db.items.find? (fun i => i.id == t.requested_item_id) = some a)
    (hb : db.items.find? (fun i => i.id == t.offered_item_id) = some b) :
    (isOk (cancelTrade db tradeId userId) = true ↔ t.status = .PENDING) ∧
    (t.status = .PENDING → ∃ db',
      cancelTrade db tradeId userId =
        .ok ({ t with status := .CANCELLED }, db') ∧
      db'.items.length = db.items.length ∧
      (∀ k (hk : k < db.items.length) (hk' : k < db'.items.length),
        (db.items[k].id = t.requested_item_id ∨
            db.items[k].id = t.offered_item_id →
          db'.items[k] = { db.items[k] with status := ItemStatus.AVAILABLE }) ∧
        (db.items[k].id ≠ t.requested_item_id ∧
            db.items[k].id ≠ t.offered_item_id →
          db'.items[k] = db.items[k]))) ∧
    (t.status = .COMPLETED →
      cancelTrade db tradeId userId = .error "Cannot cancel a completed trade") ∧
    (t.status = .CANCELLED →
      cancelTrade db tradeId userId = .error "Trade is already cancelled") ∧
    ("Cannot cancel a completed trade" : String) ≠ "Trade is already cancelled" := by
  have hna : ¬(t.owner_id ≠ userId ∧ t.requester_id ≠ userId) := by
    rcases hpart with hp | hp
    · exact fun hc => hc.1 hp
    · exact fun hc => hc.2 hp
  have hpend : t.status = .PENDING → cancelTrade db tradeId userId =
      .ok ({ t with status := .CANCELLED },
        { db with
            trades := db.trades.map fun x =>
              if x.id = tradeId then { x with status := TradeStatus.CANCELLED }
              else x
            items := db.items.map fun i =>
              if i.id = t.requested_item_id ∨ i.id = t.offered_item_id then
                { i with status := ItemStatus.AVAILABLE }
              else i }) := by
    intro hst
    unfold cancelTrade
    rw [ht]
    dsimp only
    rw [if_neg hna, if_neg (by simp [hst]), if_neg (by simp [hst]), ha]
    dsimp only
    rw [hb]
  have hcompl : t.status = .COMPLETED →
      cancelTrade db tradeId userId = .error "Cannot cancel a completed trade" := by
    intro hst
    unfold cancelTrade
    rw [ht]
    dsimp only
    rw [if_neg hna, if_pos hst]
  have hcanc : t.status = .CANCELLED →
      cancelTrade db tradeId userId = .error "Trade is already cancelled" := by
    intro hst
    unfold cancelTrade
    rw [ht]
    dsimp only
    rw [if_neg hna, if_neg (by simp [hst]), if_pos hst]
  refine ⟨⟨?_, fun hst => by rw [hpend hst]; rfl⟩, ?_, hcompl, hcanc, by decide⟩
  · intro hok
    cases hstat : t.status with
    | PENDING => rfl
    | COMPLETED => rw [hcompl hstat] at hok; simp [isOk] at hok
    | CANCELLED => rw [hcanc hstat] at hok; simp [isOk] at hok
  · intro hst
    refine ⟨_, hpend hst, by simp, ?_⟩
    intro k hk hk'
    constructor
    · intro hcase
      simp only [List.getElem_map]
      rw [if_pos hcase]
    · intro hcase
      simp only [List.getElem_map]
      rw [if_neg (by tauto)]

/-- C1: accepting a PENDING trade request whose requested item the caller
owns, with both items AVAILABLE, atomically sets the request to ACCEPTED,
creates exactly one new PENDING Trade referencing both items and both
participants, sets both items to RESERVED, turns every other PENDING
request whose requested or offered item is either of the two items to
REJECTED, and leaves every request touching neither item — as well as
every other non-PENDING request — unchanged. -/
theorem acceptTradeRequest_spec
    (db : DB) (req : TradeRequest) (a b : Item) (requestId userId newTradeId : Nat)
    (hreq : db.tradeRequests.find? (fun r => r.id == requestId) = some req)
    (ha : db.items.find? (fun i => i.id == req.requested_item_id) = some a)
    (hb : db.items.find? (fun i => i.id == req.offered_item_id) = some b)
    (hown : a.user_id = userId)
    (hst : req.status = .PENDING)
    (haAv : a.status = .AVAILABLE)
    (hbAv : b.status = .AVAILABLE) :
    ∃ db', acceptTradeRequest db requestId userId newTradeId =
        .ok (⟨newTradeId, requestId, userId, req.requester_id,
            req.requested_item_id, req.offered_item_id, .PENDING, none⟩,
          { req with status := .ACCEPTED }, db') ∧
      db'.trades = db.trades ++
        [⟨newTradeId, requestId, userId, req.requester_id,
          req.requested_item_id, req.offered_item_id, .PENDING, none⟩] ∧
      db'.items.length = db.items.length ∧
      (∀ k (hk : k < db.items.length) (hk' : k < db'.items.length),
        (db.items[k].id = req.requested_item_id ∨
            db.items[k].id = req.offered_item_id →
          db'.items[k] = { db.items[k] with status := ItemStatus.RESERVED }) ∧
        (db.items[k].id ≠ req.requested_item_id ∧
            db.items[k].id ≠ req.offered_item_id →
          db'.items[k] = db.items[k])) ∧
      db'.tradeRequests.length = db.tradeRequests.length ∧
      (∀ k (hk : k < db.tradeRequests.length)
          (hk' : k < db'.tradeRequests.length),
        (db.tradeRequests[k].id = requestId →
          db'.tradeRequests[k] =
            { db.tradeRequests[k] with status := ReqStatus.ACCEPTED }) ∧
        (db.tradeRequests[k].id ≠ requestId ∧
            db.tradeRequests[k].status = .PENDING ∧
            touchesItems db.tradeRequests[k]
              req.requested_item_id req.offered_item_id →
          db'.tradeRequests[k] =
            { db.tradeRequests[k] with status := ReqStatus.REJECTED }) ∧
        (db.tradeRequests[k].id ≠ requestId ∧
            ¬touchesItems db.tradeRequests[k]
              req.requested_item_id req.offered_item_id →
          db'.tradeRequests[k] = db.tradeRequests[k]) ∧
        (db.tradeRequests[k].id ≠ requestId ∧
            db.tradeRequests[k].status ≠ .PENDING →
          db'.tradeRequests[k] = db.tradeRequests[k])) ∧
      db'.swappedItems = db.swappedItems ∧ db'.ratings = db.ratings ∧
      db'.users = db.users := by
  have hcomp : acceptTradeRequest db requestId userId newTradeId =
      .ok (⟨newTradeId, requestId, userId, req.requester_id,
          req.requested_item_id, req.offered_item_id, .PENDING, none⟩,
        { req with status := .ACCEPTED },
        { db with
            tradeRequests :=
              (db.tradeRequests.map fun r =>
                if r.id = requestId then { r with status := ReqStatus.ACCEPTED }
                else r).map fun r =>
                if r.id ≠ requestId ∧ r.status = .PENDING ∧
                    touchesItems r req.requested_item_id req.offered_item_id then
                  { r with status := ReqStatus.REJECTED }
                else r
            items := db.items.map fun i =>
              if i.id = req.requested_item_id ∨ i.id = req.offered_item_id then
                { i with status := ItemStatus.RESERVED }
              else i
            trades := db.trades ++
              [⟨newTradeId, requestId, userId, req.requester_id,
                req.requested_item_id, req.offered_item_id, .PENDING, none⟩] }) := by
    unfold acceptTradeRequest
    rw [hreq]
    dsimp only
    rw [ha]
    dsimp only
    rw [hb]
    dsimp only
    rw [if_neg (by simp [hown]), if_neg (by simp [hst]),
      if_neg (by simp [haAv]), if_neg (by simp [hbAv])]
  refine ⟨_, hcomp, rfl, by simp, ?_, by simp, ?_, rfl, rfl, rfl⟩
  · intro k hk hk'
    constructor
    · intro hcase
      simp only [List.getElem_map]
      rw [if_pos hcase]
    · intro hcase
      simp only [List.getElem_map]
      rw [if_neg (by tauto)]
  · intro k hk hk'
    refine ⟨?_, ?_, ?_, ?_⟩
    · intro hcase
      simp only [List.getElem_map]
      rw [if_pos hcase, if_neg (fun hc => hc.1 hcase)]
    · intro hcase
      simp only [List.getElem_map]
      rw [if_neg hcase.1, if_pos hcase]
    · intro hcase
      simp only [List.getElem_map]
      rw [if_neg hcase.1, if_neg (fun hc => hcase.2 hc.2.2)]
    · intro hcase
      simp only [List.getElem_map]
      rw [if_neg hcase.1, if_neg (fun hc => hcase.2 hc.2.1)]

/-- C6: after a successful CreateRating for a (rater, reviewee, trade)
triple, a second CreateRating with the same triple fails with the
duplicate-rating error, and deleting the created rating restores every
user's loyalty state to exactly what it was before the create (the delete
reverses exactly the points the create granted). -/
theorem createRating_duplicate_fails_and_delete_reverses
    (db db' : DB) (r : Rating)
    (reviewee_id trade_id rating raterId newRatingId : Nat)
    (comment : Option String)
    (h : createRating db reviewee_id trade_id rating comment raterId
      newRatingId = .ok (r, db'))
    (hfresh : ∀ x ∈ db.ratings, x.id ≠ newRatingId) :
    (∀ rating' : Nat, ∀ comment' : Option String, ∀ nid : Nat,
      createRating db' reviewee_id trade_id rating' comment' raterId nid =
        .error "You have already rated this user for this trade") ∧
    (∃ db'', deleteRating db' newRatingId raterId = .ok db'' ∧
      db''.users = db.users) := by
  unfold createRating at h
  split at h
  · simp at h
  · rename_i hne
    split at h
    · simp at h
    · rename_i trade htr
      split at h
      · simp at h
      · rename_i hstat
        split at h
        · simp at h
        · rename_i hrater
          split at h
          · simp at h
          · rename_i hreviewee
            split at h
            · simp at h
            · rename_i hdup
              split at h
              · simp at h
              · rename_i u hu
                simp only [Except.ok.injEq, Prod.mk.injEq] at h
                obtain ⟨hr, hdb⟩ := h
                subst hdb
                constructor
                · intro rating' comment' nid
                  unfold createRating
                  rw [if_neg hne]
                  dsimp only
                  rw [htr]
                  dsimp only
                  rw [if_neg hstat, if_neg hrater, if_neg hreviewee]
                  rw [find?_append_none _ _ _ hdup]
                  simp [List.find?]
                · have hnone : (db.ratings.find?
                      (fun x => x.id == newRatingId)) = none :=
                    List.find?_eq_none.mpr (fun x hx => by simp [hfresh x hx])
                  have hdel : deleteRating
                      { db with
                          ratings := db.ratings ++
                            [⟨newRatingId, raterId, reviewee_id, trade_id,
                              rating, comment⟩]
                          users := db.users.map fun v =>
                            if v.id = reviewee_id then
                              { v with loyalty_points :=
                                  v.loyalty_points + (rating : Int) * 5 }
                            else v }
                      newRatingId raterId = .ok
                      { db with
                          ratings := (db.ratings ++
                            [(⟨newRatingId, raterId, reviewee_id, trade_id,
                              rating, comment⟩ : Rating)]).filter
                                fun x => decide (x.id ≠ newRatingId)
                          users := (db.users.map fun v =>
                            if v.id = reviewee_id then
                              { v with loyalty_points :=
                                  v.loyalty_points + (rating : Int) * 5 }
                            else v).map fun v =>
                              if v.id = reviewee_id then
                                { v with loyalty_points :=
                                    v.loyalty_points - (rating : Int) * 5 }
                              else v } := by
                    unfold deleteRating
                    dsimp only
                    rw [find?_append_none _ _ _ hnone]
                    rw [List.find?_cons_of_pos _ (by simp)]
                    dsimp only
                    rw [if_neg (by simp)]
                    rw [find?_map_comm
                      (fun v : User =>
                        if v.id = reviewee_id then
                          { v with loyalty_points :=
                              v.loyalty_points + (rating : Int) * 5 }
                        else v)
                      (fun v => v.id == reviewee_id) db.users
                      (fun v => by
                        by_cases hv : v.id = reviewee_id <;> simp [hv])]
                    rw [hu]
                    rfl
                  refine ⟨_, hdel, ?_⟩
                  dsimp only
                  rw [List.map_map]
                  refine map_id_of_eq _ _ (fun v _ => ?_)
                  obtain ⟨vid, vlp, vb⟩ := v
                  simp only [Function.comp]
                  by_cases hv : vid = reviewee_id <;> simp [hv]

/-- C3 counterexample: at this concrete input the rating is persisted and
the reviewee's points rise from 46 to 51, crossing the SILVER threshold,
yet the stored badge stays BRONZE while `calculateBadge` of the new total
is SILVER — `createRating` does not recompute the badge, contradicting the
claim's final clause. -/
theorem createRating_badge_not_recomputed_cex :
    createRating dbRating 2 10 1 none 1 5 =
      .ok (⟨5, 1, 2, 10, 1, none⟩, dbRated) ∧
    dbRated.users = [⟨2, 51, .BRONZE⟩] ∧
    calculateBadge 51 = .SILVER ∧
    Badge.BRONZE ≠ Badge.SILVER :=
  ⟨rfl, rfl, rfl, by decide⟩

/-- C3 (amended): a valid CreateRating call persists the rating and, in
the same atomic step, increments the reviewee's loyalty_points by the
fixed per-star reward of 5 points per star; no badge recomputation takes
place — every user's badge field is left unchanged. -/
theorem createRating_effects
    (db db' : DB) (r : Rating)
    (reviewee_id trade_id rating raterId newRatingId : Nat)
    (comment : Option String)
    (h : createRating db reviewee_id trade_id rating comment raterId
      newRatingId = .ok (r, db')) :
    r = ⟨newRatingId, raterId, reviewee_id, trade_id, rating, comment⟩ ∧
    db'.ratings = db.ratings ++ [r] ∧
    db'.users.length = db.users.length ∧
    (∀ k (hk : k < db.users.length) (hk' : k < db'.users.length),
      (db.users[k].id = reviewee_id →
        db'.users[k] = { db.users[k] with
          loyalty_points := db.users[k].loyalty_points + (rating : Int) * 5 }) ∧
      (db.users[k].id ≠ reviewee_id → db'.users[k] = db.users[k]) ∧
      db'.users[k].badge = db.users[k].badge) ∧
    db'.items = db.items ∧ db'.trades = db.trades ∧
    db'.tradeRequests = db.tradeRequests ∧
    db'.swappedItems = db.swappedItems := by
  unfold createRating at h
  split at h
  · simp at h
  · rename_i hne
    split at h
    · simp at h
    · rename_i trade htr
      split at h
      · simp at h
      · rename_i hstat
        split at h
        · simp at h
        · rename_i hrater
          split at h
          · simp at h
          · rename_i hreviewee
            split at h
            · simp at h
            · rename_i hdup
              split at h
              · simp at h
              · rename_i u hu
                simp only [Except.ok.injEq, Prod.mk.injEq] at h
                obtain ⟨hr, hdb⟩ := h
                subst hdb
                refine ⟨hr.symm, by rw [hr], by simp, ?_, rfl, rfl, rfl, rfl⟩
                intro k hk hk'
                refine ⟨?_, ?_, ?_⟩
                · intro hcase
                  simp only [List.getElem_map]
                  rw [if_pos hcase]
                · intro hcase
                  simp only [List.getElem_map]
                  rw [if_neg hcase]
                · simp only [List.getElem_map]
                  by_cases hcase : db.users[k].id = reviewee_id
                  · rw [if_pos hcase]
                  · rw [if_neg hcase]

/-! ## Witnesses: the hypothesis-bearing theorems instantiated on the
sample states -/

/-- Witness for C5's monotonicity hypothesis at concrete points. -/
theorem calculateBadge_monotone_witness :
    badgeRank (calculateBadge 3) ≤ badgeRank (calculateBadge 70) :=
  calculateBadge_monotone_and_boundaries.1 3 70 (by decide)

/-- Witness for C10 on the sample pending trade. -/
theorem completeTrade_cancelTrade_resolve_witness :
    isOk (completeTrade dbReserved 1 7 5) = true ∧
    completeTrade dbReserved 50 7 5 = .error "Trade not found" ∧
    isOk (cancelTrade dbReserved 50 7) = true ∧
    cancelTrade dbReserved 1 7 = .error "Trade not found" :=
  completeTrade_cancelTrade_resolve_different_identifiers dbReserved
    ⟨50, 1, 7, 8, 100, 200, .PENDING, none⟩ ⟨100, 7, .RESERVED⟩
    ⟨200, 8, .RESERVED⟩ 7 5 rfl (by decide) rfl rfl rfl rfl

/-- Witness for C9 on the sample request creation. -/
theorem createTradeRequest_frame_witness :
    dbNewReq.users = dbNoReq.users :=
  (createTradeRequest_frame dbNoReq dbNewReq ⟨1, 8, 100, 200, .PENDING⟩
    100 200 8 1 rfl).2.2.2.2.2.2.1

/-- Witness for C8 on the sample trade completed twice. -/
theorem completeTrade_idempotent_witness :
    completeTrade dbCompleted 1 8 100 =
      .error "Trade is not in pending status" :=
  completeTrade_idempotent_rejecting dbReserved dbCompleted
    ⟨50, 1, 7, 8, 100, 200, .COMPLETED, some 99⟩ 1 7 8 99 100 rfl
    (Or.inr rfl)

/-- Witness for C2 on the sample pending trade. -/
theorem completeTrade_effects_witness :
    isOk (completeTrade dbReserved 1 7 99) = true := by
  obtain ⟨db', hok, -⟩ := completeTrade_effects dbReserved
    ⟨50, 1, 7, 8, 100, 200, .PENDING, none⟩ ⟨100, 7, .RESERVED⟩
    ⟨200, 8, .RESERVED⟩ 1 7 99 rfl (Or.inl rfl) rfl rfl rfl
  rw [hok]
  rfl

/-- Witness for C7 on the sample pending trade. -/
theorem cancelTrade_spec_witness :
    isOk (cancelTrade dbReserved 50 7) = true := by
  obtain ⟨hiff, -⟩ := cancelTrade_spec dbReserved
    ⟨50, 1, 7, 8, 100, 200, .PENDING, none⟩ ⟨100, 7, .RESERVED⟩
    ⟨200, 8, .RESERVED⟩ 50 7 rfl (Or.inl rfl) rfl rfl
  exact hiff.mpr rfl

/-- Witness for C1 on the sample request acceptance. -/
theorem acceptTradeRequest_spec_witness :
    isOk (acceptTradeRequest dbAvail 1 7 50) = true := by
  obtain ⟨db', hok, -⟩ := acceptTradeRequest_spec dbAvail
    ⟨1, 8, 100, 200, .PENDING⟩ ⟨100, 7, .AVAILABLE⟩ ⟨200, 8, .AVAILABLE⟩
    1 7 50 rfl rfl rfl rfl rfl rfl rfl
  rw [hok]
  rfl

/-- Witness for C6 on the sample rating. -/
theorem createRating_duplicate_witness :
    createRating dbRated 2 10 4 none 1 6 =
      .error "You have already rated this user for this trade" :=
  (createRating_duplicate_fails_and_delete_reverses dbRating dbRated
    ⟨5, 1, 2, 10, 1, none⟩ 2 10 1 1 5 none rfl (by simp [dbRating])).1 4 none 6

/-- Witness for C3's amended theorem on the sample rating. -/
theorem createRating_effects_witness :
    dbRated.ratings = dbRating.ratings ++ [⟨5, 1, 2, 10, 1, none⟩] :=
  (createRating_effects dbRating dbRated ⟨5, 1, 2, 10, 1, none⟩
    2 10 1 1 5 none rfl).2.1

end Swappo
